import Mathlib

/-!
# Verification of the `daner` car-inventory core

Shallow embedding of the validation / filter / pagination / persistence
logic of the repository (`src/app.py`, `src/pages/1_Browse.py`,
`src/pages/2_Add.py`, `src/pages/3_Edit.py`, `src/pages/5_upload.py`).

Modelling conventions:
* pandas cells are `Option`-valued: `none` is the missing marker
  (`pd.NA` for string-dtype columns, `NaN` for numeric ones);
* numeric cells (`Year`, `Mileage`, `Price` — pandas `float64`) are `Option ℚ`;
* Python `str()` applied to a missing string cell yields the literal
  text `"<NA>"` (pandas' printable NA marker), which is modelled exactly,
  because several checks in the source feed missing cells through `str()`;
* Python `int(x)` on a number truncates toward zero, modelled by `pyInt`.
-/

namespace Daner

/-- One in-memory inventory row in the canonical 19-column order of
`ALL_COLUMNS` (`app.py` lines 15-18).  Text columns are `Option String`
(missing = `pd.NA`), numeric columns `Year`, `Mileage`, `Price` are
`Option ℚ` (missing = `NaN`). -/
structure Row where
  stockNo : Option String := none
  make : Option String := none
  model : Option String := none
  year : Option ℚ := none
  trim : Option String := none
  bodyStyle : Option String := none
  transmission : Option String := none
  fuel : Option String := none
  engine : Option String := none
  drivetrain : Option String := none
  mileage : Option ℚ := none
  exteriorColor : Option String := none
  interiorColor : Option String := none
  vin : Option String := none
  price : Option ℚ := none
  condition : Option String := none
  features : Option String := none
  location : Option String := none
  photo : Option String := none
deriving Repr, DecidableEq

/-- Python's `str()` on a string-dtype pandas cell: a present value prints
itself, the missing value `pd.NA` prints as the four characters `"<NA>"`.
(This is pandas behaviour: `str(pd.NA) == "<NA>"`; note the result is a
non-blank string.) -/
def pyStr : Option String → String
  | none => "<NA>"
  | some s => s

/-- Characters stripped by Python's `str.strip()` (the common whitespace
characters). -/
def isPySpace (c : Char) : Bool :=
  c = ' ' || c = '\t' || c = '\n' || c = '\x0d'

/-- Python `str.strip()` on a character list. -/
def pyStripChars (l : List Char) : List Char :=
  ((l.dropWhile isPySpace).reverse.dropWhile isPySpace).reverse

/-- Python `str.strip()`. -/
def pyStrip (s : String) : String :=
  String.mk (pyStripChars s.data)

/-- Python `int(x)` on a (finite) number: truncation toward zero. -/
def pyInt (q : ℚ) : ℤ :=
  q.num.tdiv q.den

/-- `"row {idx+1}"` — the row label used by `validate_rows`
(`app.py` line 124). -/
def rowId (i : ℕ) : String :=
  "row " ++ toString (i + 1)

/-- The `Year` checks of `validate_rows` (`app.py` lines 131-140):
missing → required message; otherwise Python computes `yi = int(y)` and
checks `1900 ≤ yi ≤ 2100`.  (The `except` branch "Year must be a number"
catches only non-finite floats and cannot fire for a finite cell, so it
does not appear in the embedding of the reachable behaviour.) -/
def yearErrors (rid : String) : Option ℚ → List String
  | none => [rid ++ ": Year is required."]
  | some q =>
      if pyInt q < 1900 ∨ 2100 < pyInt q then
        [rid ++ ": Year must be between 1900 and 2100."]
      else []

/-- The `Price` checks of `validate_rows` (`app.py` lines 141-149). -/
def priceErrors (rid : String) : Option ℚ → List String
  | none => [rid ++ ": Price is required."]
  | some p => if p ≤ 0 then [rid ++ ": Price must be > 0."] else []

/-- The `VIN` check of `validate_rows` (`app.py` lines 150-152):
`vin = str(row.get("VIN", "")).strip()`, error when `vin` is truthy and
its length is not 17.  A missing VIN passes through `str` as `"<NA>"`. -/
def vinErrors (rid : String) (vin : Option String) : List String :=
  if pyStrip (pyStr vin) ≠ "" ∧ (pyStrip (pyStr vin)).length ≠ 17 then
    [rid ++ ": VIN should be 17 characters (optional but if set, must be 17)."]
  else []

/-- All per-row messages of `validate_rows` for row index `i`
(`app.py` lines 123-152), in source order.  The blank tests are
`not str(row.get(...)).strip()`, evaluated through `pyStr`. -/
def rowErrors (i : ℕ) (r : Row) : List String :=
  (if pyStrip (pyStr r.stockNo) = "" then [rowId i ++ ": StockNo is required."] else []) ++
  (if pyStrip (pyStr r.make) = "" then [rowId i ++ ": Make is required."] else []) ++
  (if pyStrip (pyStr r.model) = "" then [rowId i ++ ": Model is required."] else []) ++
  yearErrors (rowId i) r.year ++
  priceErrors (rowId i) r.price ++
  vinErrors (rowId i) r.vin

/-- `df["StockNo"].astype(str)` over the batch. -/
def stockStrs (rows : List Row) : List String :=
  rows.map fun r => pyStr r.stockNo

/-- Insert into a `≤`-sorted list of strings, keeping it sorted. -/
def insertSorted (s : String) : List String → List String
  | [] => [s]
  | x :: xs => if s ≤ x then s :: x :: xs else x :: insertSorted s xs

/-- Python's `sorted` on a list of strings (insertion sort). -/
def pySorted (l : List String) : List String :=
  l.foldr insertSorted []

/-- The values of `StockNo` (as strings) that occur more than once —
`sorted(set(dups))` for the duplicate message (`app.py` lines 154-156). -/
def dupStockNos (rows : List Row) : List String :=
  let strs := stockStrs rows
  pySorted ((strs.filter fun s => 1 < strs.count s).dedup)

/-- The single collection-wide duplicate message (`app.py` line 156).
(The Python f-string renders the list with `repr`; the embedding renders
it with Lean's `toString`, an inessential formatting difference.) -/
def dupMessage (dups : List String) : String :=
  "Duplicate StockNo values found: " ++ toString dups

/-- `validate_rows` (`app.py` lines 118-157) for a batch whose `StockNo`
column exists (every `Row` has the field): all per-row messages in row
order, followed by the duplicate-`StockNo` message when duplicates
exist. -/
def validate_rows (rows : List Row) : List String :=
  (rows.enum.map fun p => rowErrors p.1 p.2).flatten ++
  (if dupStockNos rows = [] then [] else [dupMessage (dupStockNos rows)])

/-! ## Browse pipeline: numeric bounds, range filter, pagination
(`app.py` lines 82-89, 238-243, 249-257; `pages/1_Browse.py` 94-99, 175-195) -/

/-- The fixed set of allowed page sizes
(`st.select_slider("Cards per page", [6,9,12,15,18,24])`). -/
def allowedPageSizes : List ℕ := [6, 9, 12, 15, 18, 24]

/-- `math.ceil(total / per_page)` on naturals (`P > 0`). -/
def ceilPages (total P : ℕ) : ℕ := (total + P - 1) / P

/-- `pages = max(1, math.ceil(total / per_page))` (`app.py` line 250). -/
def pagesFor (total P : ℕ) : ℕ := max 1 (ceilPages total P)

/-- The page-number widget `st.number_input("Page", min_value=1,
max_value=pages)` clamps the requested page into `[1, pages]`. -/
def clampPage (K pages : ℕ) : ℕ := min (max 1 K) pages

/-- `start, end = (page_no-1)*per_page, (page_no-1)*per_page + per_page;`
`view = filtered.iloc[start:end]` (`app.py` lines 254-257), with the
page number clamped by the widget. -/
def browsePage {α : Type} (rows : List α) (P K : ℕ) : List α :=
  let k := clampPage K (pagesFor rows.length P)
  (rows.drop ((k - 1) * P)).take P

/-- `numeric_bounds` (`app.py` lines 82-89): drop missing values; if none
remain return the default; otherwise `(int(min), int(max))`, widening a
degenerate interval to `(lo, lo+1)`. -/
def numeric_bounds (s : List (Option ℚ)) (default : ℤ × ℤ) : ℤ × ℤ :=
  match s.filterMap id with
  | [] => default
  | v :: vs =>
      let lo := pyInt (vs.foldl min v)
      let hi := pyInt (vs.foldl max v)
      if lo = hi then (lo, lo + 1) else (lo, hi)

/-- One pandas comparison row-test
`(value >= lo) & (value <= hi)`: a missing value (`NaN`) compares `False`
on both sides, so it fails the conjunction. -/
def inRange (lo hi : ℤ) : Option ℚ → Bool
  | none => false
  | some v => decide ((lo : ℚ) ≤ v) && decide (v ≤ (hi : ℚ))

/-- The numeric range filter
`filtered[(filtered[col] >= lo) & (filtered[col] <= hi)]`
(`app.py` lines 238-243) for a numeric column selected by `get`. -/
def rangeFilter (get : Row → Option ℚ) (lo hi : ℤ) (rows : List Row) : List Row :=
  rows.filter fun r => inRange lo hi (get r)

/-! ## Relational store (`sqlite3` table `Store`) -/

/-- One stored row of the sqlite `Store` table
(`pages/5_upload.py` lines 34-56): `StockNo TEXT PRIMARY KEY` (sqlite
permits `NULL` in a non-`INTEGER` primary key), the photo column is
named `Photo_URL`. -/
structure DBRow where
  stockNo : Option String := none
  make : Option String := none
  model : Option String := none
  year : Option ℚ := none
  trim : Option String := none
  bodyStyle : Option String := none
  transmission : Option String := none
  fuel : Option String := none
  engine : Option String := none
  drivetrain : Option String := none
  mileage : Option ℚ := none
  exteriorColor : Option String := none
  interiorColor : Option String := none
  vin : Option String := none
  price : Option ℚ := none
  condition : Option String := none
  features : Option String := none
  location : Option String := none
  photoURL : Option String := none
deriving Repr, DecidableEq

instance {ε α : Type} [DecidableEq ε] [DecidableEq α] :
    DecidableEq (Except ε α) := fun a b =>
  match a, b with
  | .ok x, .ok y =>
      if h : x = y then .isTrue (by rw [h]) else .isFalse (by simp [h])
  | .error x, .error y =>
      if h : x = y then .isTrue (by rw [h]) else .isFalse (by simp [h])
  | .ok _, .error _ => .isFalse (by simp)
  | .error _, .ok _ => .isFalse (by simp)

/-! ### `upsert_rows` (`pages/3_Edit.py` lines 74-157) -/

/-- The 19 column names listed by the `INSERT INTO Store (...)` of
`upsert_rows` (`pages/3_Edit.py` lines 106-110). -/
def upsertInsertCols : List String :=
  ["StockNo", "Make", "Model", "Year", "Trim", "BodyStyle", "Transmission",
   "Fuel", "Engine", "Drivetrain", "Mileage", "ExteriorColor",
   "InteriorColor", "VIN", "Price", "Condition", "Features", "Location",
   "Photo_URL"]

/-- The number of `?` placeholders in the `VALUES` clause of the same
statement (`pages/3_Edit.py` line 111): twenty. -/
def upsertPlaceholderCount : ℕ := 20

/-- The row a successful upsert would store: `n_int` truncates `Year` and
`Mileage` to Python ints, `n_float` keeps `Price`, text passes through,
`Photo` maps to `Photo_URL` (`pages/3_Edit.py` lines 98-152). -/
def dbRowOfEdited (stock : String) (r : Row) : DBRow :=
  { stockNo := some stock, make := r.make, model := r.model,
    year := r.year.map fun q => (pyInt q : ℚ), trim := r.trim,
    bodyStyle := r.bodyStyle, transmission := r.transmission,
    fuel := r.fuel, engine := r.engine, drivetrain := r.drivetrain,
    mileage := r.mileage.map fun q => (pyInt q : ℚ),
    exteriorColor := r.exteriorColor, interiorColor := r.interiorColor,
    vin := r.vin, price := r.price, condition := r.condition,
    features := r.features, location := r.location, photoURL := r.photo }

/-- sqlite execution of the `INSERT ... ON CONFLICT(StockNo) DO UPDATE`
statement of `upsert_rows`.  sqlite first checks the statement shape: a
`VALUES` clause whose placeholder count differs from the column-list
length is rejected with the error `"N values for M columns"` and nothing
is written.  Only a well-formed statement would reach the genuine
insert-or-overwrite semantics modelled in the remaining branches. -/
def execUpsertStmt (st : List DBRow) (stock : String) (r : Row) :
    Except String (List DBRow) :=
  if upsertPlaceholderCount ≠ upsertInsertCols.length then
    .error (toString upsertPlaceholderCount ++ " values for " ++
      toString upsertInsertCols.length ++ " columns")
  else if st.any fun x => x.stockNo = some stock then
    .ok (st.map fun x => if x.stockNo = some stock then dbRowOfEdited stock r else x)
  else
    .ok (st ++ [dbRowOfEdited stock r])

/-- The deletion pass of `upsert_rows` when the edit surface is
unfiltered (`pages/3_Edit.py` lines 79-88): keys present before but not
after the edit are deleted; the empty string is excluded (`if s`). -/
def applyDeletes (st : List DBRow) (full edited : List Row) : List DBRow :=
  let before := stockStrs full
  let after := stockStrs edited
  let toDelete := (before.filter fun s => s ∉ after).filter fun s => s ≠ ""
  st.filter fun x =>
    match x.stockNo with
    | none => true
    | some v => v ∉ toDelete

/-- The per-row upsert loop of `upsert_rows` (`pages/3_Edit.py` lines
91-153): `stock = str(row.get("StockNo") or "").strip()`; a blank key
skips the row silently (`continue`); applying `or` to the missing marker
`pd.NA` raises `TypeError` ("boolean value of NA is ambiguous"); any
raised error aborts the loop (and the surrounding transaction). -/
def runUpserts (st : List DBRow) : List Row → Except String (List DBRow)
  | [] => .ok st
  | r :: rest =>
      match r.stockNo with
      | none => .error "boolean value of NA is ambiguous"
      | some s =>
          if pyStrip s = "" then runUpserts st rest
          else
            match execUpsertStmt st (pyStrip s) r with
            | .error e => .error e
            | .ok st2 => runUpserts st2 rest

/-- `upsert_rows(p, full_df, edited_df, q)` (`pages/3_Edit.py` lines
74-157).  `.ok st` is the table state committed by `conn.commit()`;
`.error e` models a raised exception: `conn.close()` without commit rolls
the whole transaction back, so the stored table stays as it was. -/
def upsert_rows (store : List DBRow) (full edited : List Row) (q : String) :
    Except String (List DBRow) :=
  runUpserts (if q = "" then applyDeletes store full edited else store) edited

/-! ## Add flows (`app.py` lines 379-467 and `pages/2_Add.py`) -/

/-- The values collected by an Add form.  Text inputs are plain strings
(already `.strip()`-ed by the form code); `year`, `mileage`, `price` come
from `st.number_input` and are always numbers. -/
structure AddInput where
  stockno : String := ""
  make : String := ""
  model : String := ""
  vin : String := ""
  trim : String := ""
  body : String := ""
  trans : String := ""
  fuel : String := ""
  engine : String := ""
  drive : String := ""
  ext : String := ""
  inc : String := ""
  cond : String := ""
  feats : String := ""
  loc : String := ""
  photo : String := ""
  year : ℤ := 2020
  mileage : ℤ := 0
  price : ℚ := 1000
deriving Repr, DecidableEq

/-- `x or pd.NA` for a form string: the empty string is falsy. -/
def orNA (s : String) : Option String :=
  if s = "" then none else some s

/-- The validation block of the CSV-variant Add-New handler
(`app.py` lines 415-424), messages in source order.  The duplicate test
is `stockno in set(df["StockNo"].astype(str))`. -/
def appAddErrors (df : List Row) (i : AddInput) : List String :=
  (if i.stockno = "" then ["StockNo is required."] else []) ++
  (if i.make = "" then ["Make is required."] else []) ++
  (if i.model = "" then ["Model is required."] else []) ++
  (if i.year = 0 then ["Year is required."] else []) ++
  (if i.price ≤ 0 then ["Price must be greater than 0."] else []) ++
  (if i.stockno ≠ "" ∧ i.stockno ∈ stockStrs df then
    ["StockNo `" ++ i.stockno ++ "` already exists."] else []) ++
  (if i.vin ≠ "" ∧ i.vin.length ≠ 17 then
    ["VIN should be exactly 17 characters."] else [])

/-- The `new_row` dict built on success (`app.py` lines 429-449):
empty optional strings become the missing marker, `Year`/`Mileage` use
`int(x) if x else pd.NA` (so `0` is falsy and becomes missing). -/
def newRowOfAdd (i : AddInput) : Row :=
  { stockNo := some i.stockno, make := some i.make, model := some i.model,
    year := if i.year = 0 then none else some (i.year : ℚ),
    trim := orNA i.trim, bodyStyle := orNA i.body,
    transmission := orNA i.trans, fuel := orNA i.fuel,
    engine := orNA i.engine, drivetrain := orNA i.drive,
    mileage := if i.mileage = 0 then none else some (i.mileage : ℚ),
    exteriorColor := orNA i.ext, interiorColor := orNA i.inc,
    vin := orNA i.vin, price := some i.price, condition := orNA i.cond,
    features := orNA i.feats, location := orNA i.loc,
    photo := orNA i.photo }

/-- The CSV-variant Add-New submit handler (`app.py` lines 414-458):
returns the displayed error messages together with the resulting stored
collection.  On any validation error nothing is written; otherwise the
new row is appended and the file saved. -/
def appAddSubmit (df : List Row) (i : AddInput) : List String × List Row :=
  let errs := appAddErrors df i
  if errs = [] then ([], df ++ [newRowOfAdd i]) else (errs, df)

/-- `set(df["StockNo"].astype(str))` over the sqlite store
(`pages/2_Add.py` lines 14-24).  `read_sql` yields an object column, so
a SQL `NULL` is Python `None` and `astype(str)` renders it `"None"`. -/
def dbExistingStockNos (store : List DBRow) : List String :=
  store.map fun r =>
    match r.stockNo with
    | some s => s
    | none => "None"

/-- The validation block of the sqlite Add handler
(`pages/2_Add.py` lines 97-108), messages in source order. -/
def dbAddErrors (store : List DBRow) (i : AddInput) : List String :=
  (if i.stockno = "" then ["StockNo required."] else []) ++
  (if i.make = "" then ["Make required."] else []) ++
  (if i.model = "" then ["Model required."] else []) ++
  (if i.vin ≠ "" ∧ i.vin.length ≠ 17 then ["VIN must be 17 chars."] else []) ++
  (if i.stockno ≠ "" ∧ i.stockno ∈ dbExistingStockNos store then
    ["StockNo `" ++ i.stockno ++ "` already exists."] else [])

/-- The row `insert_car` would store (`pages/2_Add.py` lines 114-134):
raw form strings (possibly empty), `int`/`float` coercions on the
numerics, `Photo` mapped to `Photo_URL`. -/
def dbRowOfAdd (i : AddInput) : DBRow :=
  { stockNo := some i.stockno, make := some i.make, model := some i.model,
    year := some (i.year : ℚ), trim := some i.trim,
    bodyStyle := some i.body, transmission := some i.trans,
    fuel := some i.fuel, engine := some i.engine,
    drivetrain := some i.drive, mileage := some (i.mileage : ℚ),
    exteriorColor := some i.ext, interiorColor := some i.inc,
    vin := some i.vin, price := some i.price, condition := some i.cond,
    features := some i.feats, location := some i.loc,
    photoURL := some i.photo }

/-- Number of `?` placeholders in the `VALUES` clause of `insert_car`
(`pages/2_Add.py` line 37): twenty, against the same 19-name column list
as `upsertInsertCols` (lines 33-37). -/
def insertCarPlaceholderCount : ℕ := 20

/-- sqlite execution of the plain `INSERT INTO Store (...)` of
`insert_car` (`pages/2_Add.py` lines 26-63): statement-shape check
first, then the `UNIQUE` primary-key constraint, then the insert. -/
def insert_car (store : List DBRow) (i : AddInput) :
    Except String (List DBRow) :=
  if insertCarPlaceholderCount ≠ upsertInsertCols.length then
    .error (toString insertCarPlaceholderCount ++ " values for " ++
      toString upsertInsertCols.length ++ " columns")
  else if store.any fun x => x.stockNo = some i.stockno then
    .error "UNIQUE constraint failed: Store.StockNo"
  else
    .ok (store ++ [dbRowOfAdd i])

/-- The sqlite Add submit handler (`pages/2_Add.py` lines 96-142):
on validation errors nothing is inserted; otherwise `insert_car` runs
and a raised exception is caught and displayed
(`st.error(f"Error saving car: {e}")`) with the store unchanged. -/
def dbAddSubmit (store : List DBRow) (i : AddInput) :
    List String × List DBRow :=
  let errs := dbAddErrors store i
  if errs = [] then
    match insert_car store i with
    | .ok st => ([], st)
    | .error e => (["Error saving car: " ++ e], store)
  else (errs, store)

/-! ## CSV import (`pages/5_upload.py`) -/

/-- `REQUIRED_COLUMNS` (`pages/5_upload.py` lines 23-26). -/
def REQUIRED_COLUMNS : List String :=
  ["StockNo", "Make", "Model", "Year", "BodyStyle", "Transmission", "Fuel",
   "Engine", "Drivetrain", "Mileage", "ExteriorColor", "InteriorColor",
   "VIN", "Price", "Condition", "Location"]

/-- The required columns absent from an uploaded file's column list
(`pages/5_upload.py` line 147). -/
def missingRequired (cols : List String) : List String :=
  REQUIRED_COLUMNS.filter fun c => c ∉ cols

/-- The stored row built from one imported CSV row
(`pages/5_upload.py` lines 80-107): raw cell values, `NaN`/`pd.NA`
becomes SQL `NULL`, `Photo` maps to `Photo_URL`. -/
def dbRowOfImport (r : Row) : DBRow :=
  { stockNo := r.stockNo, make := r.make, model := r.model,
    year := r.year, trim := r.trim, bodyStyle := r.bodyStyle,
    transmission := r.transmission, fuel := r.fuel, engine := r.engine,
    drivetrain := r.drivetrain, mileage := r.mileage,
    exteriorColor := r.exteriorColor, interiorColor := r.interiorColor,
    vin := r.vin, price := r.price, condition := r.condition,
    features := r.features, location := r.location, photoURL := r.photo }

/-- sqlite `INSERT OR REPLACE` keyed by the `StockNo` primary key: an
existing row with the same key is replaced wholesale, otherwise the row
is inserted; a `NULL` key never conflicts.  (The statement here has 19
placeholders for its 19 columns — `pages/5_upload.py` lines 109-120 —
so it executes.) -/
def insertOrReplace (st : List DBRow) (x : DBRow) : List DBRow :=
  match x.stockNo with
  | none => st ++ [x]
  | some k =>
      if st.any fun y => y.stockNo = some k then
        st.map fun y => if y.stockNo = some k then x else y
      else st ++ [x]

/-- `import_csv_to_db` (`pages/5_upload.py` lines 59-124): every row of
the dataframe (absent `CSV_COLUMNS` already filled with the missing
marker, numerics coerced) is written with `INSERT OR REPLACE`, and the
row count is returned.  No validation of cell values happens here. -/
def import_csv_to_db (rows : List Row) (st : List DBRow) :
    List DBRow × ℕ :=
  (rows.foldl (fun acc r => insertOrReplace acc (dbRowOfImport r)) st,
   rows.length)

/-- The upload page handler (`pages/5_upload.py` lines 139-165): the
only pre-import check is that every required column is present; then
`import_csv_to_db` runs on all rows. -/
def uploadImport (cols : List String) (rows : List Row) (st : List DBRow) :
    Except String (List DBRow × ℕ) :=
  if missingRequired cols ≠ [] then
    .error ("CSV is missing required columns: " ++
      String.intercalate ", " (missingRequired cols))
  else
    .ok (import_csv_to_db rows st)

/-! ## Flat-file adapter (`app.py` `load_csv` lines 27-46, `save_csv`
lines 48-61)

The file is modelled as its character content (`List Char`).  `save_csv`
reorders to the 19 canonical columns and writes header plus one
comma-separated line per record, a missing value as an empty cell; a
whole number renders without an exponent, a fractional one with a
decimal point (`float64` values always have finite decimal expansions).
`load_csv` reads cells back: empty cell → missing, numeric columns
through `pd.to_numeric` (parse failure → missing), text columns stripped.
pandas' quoting of cells containing separators is not modelled; the
round-trip theorem's hypotheses restrict text to separator-free cells. -/

/-- The canonical 19 column names `ALL_COLUMNS` (`app.py` lines 15-18). -/
def ALL_COLUMNS : List String :=
  ["StockNo", "Make", "Model", "Year", "Trim", "BodyStyle", "Transmission",
   "Fuel", "Engine", "Drivetrain", "Mileage", "ExteriorColor",
   "InteriorColor", "VIN", "Price", "Condition", "Features", "Location",
   "Photo"]

/-- A decimal digit as a character (codepoint 48 is `'0'`). -/
def digitToChar (d : ℕ) : Char :=
  Char.ofNat (48 + d)

/-- A character as a decimal digit. -/
def charToDigit? (c : Char) : Option ℕ :=
  if '0' ≤ c ∧ c ≤ '9' then some (c.toNat - 48) else none

/-- Base-10 digits, least significant first, with explicit fuel (a
structurally recursive equivalent of `Nat.digits 10`). -/
def natDigitsFuel : ℕ → ℕ → List ℕ
  | 0, _ => []
  | _ + 1, 0 => []
  | fuel + 1, n + 1 => (n + 1) % 10 :: natDigitsFuel fuel ((n + 1) / 10)

/-- Base-10 digits of `n`, least significant first. -/
def natDigits (n : ℕ) : List ℕ := natDigitsFuel n n

/-- Decimal rendering of a natural number, most significant digit
first. -/
def natToChars (n : ℕ) : List Char :=
  if n = 0 then ['0'] else ((natDigits n).reverse).map digitToChar

/-- Decimal rendering of `n < 10^k` padded with leading zeros to exactly
`k` digits (the fractional part of a decimal). -/
def natToCharsPad (n k : ℕ) : List Char :=
  ((natDigits n ++
    List.replicate (k - (natDigits n).length) 0).reverse).map digitToChar

/-- Parse a most-significant-first digit string. -/
def charsToNat? (l : List Char) : Option ℕ :=
  l.foldl (fun acc c => acc.bind fun a => (charToDigit? c).map fun d => a * 10 + d)
    (some 0)

/-- The smallest `k ≤ 39` such that `q * 10^k` is integral (the
denominator divides `10^k`).  Every `float64` value is a binary
fraction, hence a finite decimal, so on values a pandas numeric column
can hold this search succeeds. -/
def decExp? (q : ℚ) : Option ℕ :=
  (List.range 40).find? fun k => q.den ∣ 10 ^ k

/-- The integer `q * 10^k`, computed on numerator and denominator
(equals `(q * 10^k).num` when `q.den ∣ 10^k`). -/
def scaledNum (q : ℚ) (k : ℕ) : ℤ :=
  q.num * ((10 ^ k / q.den : ℕ) : ℤ)

/-- Decimal rendering of the rational `m / 10^k`: sign, integer part,
and for `k ≠ 0` a point followed by `k` fraction digits. -/
def renderScaled (m : ℤ) (k : ℕ) : List Char :=
  (if m < 0 then ['-'] else []) ++
  (if k = 0 then natToChars m.natAbs
   else natToChars (m.natAbs / 10 ^ k) ++ '.' :: natToCharsPad (m.natAbs % 10 ^ k) k)

/-- Decimal rendering of a rational with a finite decimal expansion
(what `to_csv` writes for a `float64` cell, minus the trailing `".0"`
pandas keeps on whole floats — immaterial for parsing back). -/
def renderQ (q : ℚ) : List Char :=
  match decExp? q with
  | none => ['*']
  | some k => renderScaled (scaledNum q k) k

/-- Parse an unsigned decimal: digits, optionally split by one point;
the value of `a.b` is `(a * 10^|b| + b) / 10^|b|`. -/
def parseUnsigned? (l : List Char) : Option ℚ :=
  match l.splitOn '.' with
  | [a] =>
      if a = [] then none
      else (charsToNat? a).map fun n => ((n : ℕ) : ℚ)
  | [a, b] =>
      if a = [] ∧ b = [] then none
      else
        (charsToNat? a).bind fun ia =>
          (charsToNat? b).map fun ib =>
            mkRat ((ia * 10 ^ b.length + ib : ℕ) : ℤ) (10 ^ b.length)
  | _ => none

/-- Parse a signed decimal (`pd.to_numeric` on a cell; `none` models the
`errors="coerce"` fallback to `NaN`). -/
def parseQ? (l : List Char) : Option ℚ :=
  match l with
  | [] => none
  | c :: rest =>
      if c = '-' then (parseUnsigned? rest).map Rat.neg
      else parseUnsigned? (c :: rest)

/-- A text cell as written by `to_csv`: missing → empty cell. -/
def textCell : Option String → List Char
  | none => []
  | some s => s.data

/-- A numeric cell as written by `to_csv`: missing (`NaN`) → empty
cell. -/
def numCell : Option ℚ → List Char
  | none => []
  | some q => renderQ q

/-- The 19 cells of one record, in canonical column order. -/
def rowCells (r : Row) : List (List Char) :=
  [textCell r.stockNo, textCell r.make, textCell r.model, numCell r.year,
   textCell r.trim, textCell r.bodyStyle, textCell r.transmission,
   textCell r.fuel, textCell r.engine, textCell r.drivetrain,
   numCell r.mileage, textCell r.exteriorColor, textCell r.interiorColor,
   textCell r.vin, numCell r.price, textCell r.condition,
   textCell r.features, textCell r.location, textCell r.photo]

/-- The header line: the canonical column names, comma-separated. -/
def headerChars : List Char := (String.intercalate "," ALL_COLUMNS).data

/-- `save_csv` (`app.py` lines 48-61): ensure the canonical columns,
reorder, and write header plus one comma-separated line per record. -/
def save_csv (rows : List Row) : List Char :=
  List.intercalate ['\n']
    (headerChars :: rows.map fun r => List.intercalate [','] (rowCells r))

/-- One text cell on the way back in (`load_csv` lines 38-44):
empty cell → missing, otherwise the cell text stripped. -/
def parseTextCell (c : List Char) : Option String :=
  if c = [] then none else some (String.mk (pyStripChars c))

/-- One numeric cell on the way back in (`load_csv` lines 35-37,
`pd.to_numeric(..., errors="coerce")`). -/
def parseNumCell (c : List Char) : Option ℚ :=
  if c = [] then none else parseQ? c

/-- One data line parsed into a record (19 comma-separated cells in
canonical order; a malformed line yields `none`). -/
def parseLine (l : List Char) : Option Row :=
  match l.splitOn ',' with
  | [c1, c2, c3, c4, c5, c6, c7, c8, c9, c10,
     c11, c12, c13, c14, c15, c16, c17, c18, c19] =>
      some { stockNo := parseTextCell c1, make := parseTextCell c2,
             model := parseTextCell c3, year := parseNumCell c4,
             trim := parseTextCell c5, bodyStyle := parseTextCell c6,
             transmission := parseTextCell c7, fuel := parseTextCell c8,
             engine := parseTextCell c9, drivetrain := parseTextCell c10,
             mileage := parseNumCell c11, exteriorColor := parseTextCell c12,
             interiorColor := parseTextCell c13, vin := parseTextCell c14,
             price := parseNumCell c15, condition := parseTextCell c16,
             features := parseTextCell c17, location := parseTextCell c18,
             photo := parseTextCell c19 }
  | _ => none

/-- `load_csv` (`app.py` lines 27-46): drop the header line, parse each
data line, coerce and strip cells. -/
def load_csv (file : List Char) : List Row :=
  match file.splitOn '\n' with
  | [] => []
  | _header :: dataLines => dataLines.filterMap parseLine

/-- A text value that survives the CSV round trip verbatim: non-empty
(the empty string is written as an empty cell, i.e. as missing),
already stripped, and free of the separators (the claim's "no special
characters"). -/
def goodText : Option String → Bool
  | none => true
  | some s =>
      decide (s ≠ "") && decide (pyStripChars s.data = s.data) &&
      decide (',' ∉ s.data) && decide ('\n' ∉ s.data)

/-- A numeric value representable in a `float64` CSV cell: it has a
finite decimal expansion. -/
def goodNum : Option ℚ → Bool
  | none => true
  | some q => (decExp? q).isSome

/-- A record whose every field survives the round trip. -/
def goodRow (r : Row) : Bool :=
  goodText r.stockNo && goodText r.make && goodText r.model &&
  goodNum r.year && goodText r.trim && goodText r.bodyStyle &&
  goodText r.transmission && goodText r.fuel && goodText r.engine &&
  goodText r.drivetrain && goodNum r.mileage &&
  goodText r.exteriorColor && goodText r.interiorColor &&
  goodText r.vin && goodNum r.price && goodText r.condition &&
  goodText r.features && goodText r.location && goodText r.photo

/-- Whether the upsert loop of `upsert_rows` actually processes a row
(as opposed to silently skipping it): a missing `StockNo` is processed
(it raises), a present one is processed exactly when it does not strip
to blank. -/
def rowNotSkipped (r : Row) : Bool :=
  match r.stockNo with
  | none => true
  | some s => pyStrip s ≠ ""

/-! ## Concrete fixtures used by witnesses and counterexamples -/

/-- A valid edited row with a non-blank `StockNo`. -/
def editedRowA1 : Row :=
  { stockNo := some "A1", make := some "Toyota", model := some "Corolla",
    year := some 2020, price := some 19000 }

/-- An edited row whose `StockNo` is blank. -/
def blankStockRow : Row :=
  { stockNo := some "", make := some "Toyota", model := some "Corolla",
    year := some 2020, price := some 19000 }

/-- A one-row stored table. -/
def demoStore : List DBRow :=
  [{ stockNo := some "Z9", make := some "Honda", model := some "Civic",
     price := some 9000 }]

/-- A batch row with a missing `Make` and an out-of-range `Year`
(every other per-row rule satisfied). -/
def missingMakeRow : Row :=
  { stockNo := some "A1", make := none, model := some "Corolla",
    year := some 2500, price := some 100, vin := some "" }

/-- A batch row whose `Year` is the non-integer `2020.5` and whose other
fields satisfy every rule. -/
def fractionalYearRow : Row :=
  { stockNo := some "A1", make := some "Toyota", model := some "Corolla",
    year := some (mkRat 4041 2), price := some 100, vin := some "" }

/-- A batch row with `Year = 2500` and every other rule satisfied. -/
def year2500Row : Row :=
  { stockNo := some "A1", make := some "Toyota", model := some "Corolla",
    year := some 2500, price := some 100, vin := some "" }

/-- A stored record keyed `"A1"`. -/
def storedA1 : DBRow :=
  { stockNo := some "A1", make := some "Honda", model := some "Civic",
    year := some 2015, price := some 8000 }

/-- An Add form whose `StockNo` duplicates a stored record. -/
def dupAddInput : AddInput :=
  { stockno := "A1", make := "Toyota", model := "Corolla" }

/-- A record with no price. -/
def noPriceRow : Row :=
  { stockNo := some "C3", make := some "Ford", model := some "Focus" }

/-- An imported CSV row that violates the year-range, positive-price and
VIN-length rules and whose key duplicates `storedA1`. -/
def invalidImportRow : Row :=
  { stockNo := some "A1", make := some "T", model := some "M",
    year := some 5000, price := some (-3), vin := some "SHORT" }

/-- A record exercising every cell kind for the round-trip witness. -/
def csvRow1 : Row :=
  { stockNo := some "A1", make := some "Toyota", model := some "Corolla",
    year := some 2020, price := some (mkRat 4041 2),
    vin := some "1HGCM82633A004352",
    features := some "Bluetooth;Backup Camera" }

/-- A second, mostly-missing record for the round-trip witness. -/
def csvRow2 : Row :=
  { stockNo := some "B2", make := some "Honda", model := some "Civic" }

/-! ## Helper lemmas -/

theorem string_append_right_inj : ∀ (a b c : String), a ++ b = a ++ c ↔ b = c := by
  intro ⟨la⟩ ⟨lb⟩ ⟨lc⟩
  constructor
  · intro h
    have h2 : la ++ lb = la ++ lc := congrArg String.data h
    exact congrArg String.mk (List.append_cancel_left h2)
  · intro h
    rw [h]

theorem mem_if_singleton {α : Type} {c : Prop} [Decidable c] {x m : α}
    (h : m ∈ if c then [x] else ([] : List α)) : m = x ∧ c := by
  split at h
  · exact ⟨by simpa using h, by assumption⟩
  · simp at h

theorem mem_if_singleton_of {α : Type} {c : Prop} [Decidable c] {x : α}
    (hc : c) : x ∈ if c then [x] else ([] : List α) := by
  rw [if_pos hc]
  exact List.mem_singleton.mpr rfl

/-- Any batch containing a row the upsert loop actually processes makes
the loop raise: the very first processed row either has a missing key
(`bool(pd.NA)` raises) or reaches the malformed 20-placeholder
statement. -/
theorem runUpserts_isError (st : List DBRow) (l : List Row)
    (h : ∃ r ∈ l, rowNotSkipped r = true) :
    ∃ msg, runUpserts st l = .error msg := by
  induction l generalizing st with
  | nil => simp at h
  | cons r rest ih =>
    obtain ⟨w, hw, hnot⟩ := h
    cases hs : r.stockNo with
    | none => exact ⟨"boolean value of NA is ambiguous", by simp [runUpserts, hs]⟩
    | some s =>
      by_cases hb : pyStrip s = ""
      · have hwrest : w ∈ rest := by
          rcases List.mem_cons.mp hw with h1 | h1
          · subst h1
            rw [rowNotSkipped, hs] at hnot
            simp [hb] at hnot
          · exact h1
        obtain ⟨m, hm⟩ := ih st ⟨w, hwrest, hnot⟩
        exact ⟨m, by simp [runUpserts, hs, hb, hm]⟩
      · have hexec : execUpsertStmt st (pyStrip s) r = .error "20 values for 19 columns" := by
          rw [execUpsertStmt, if_pos (by decide)]
          decide
        exact ⟨"20 values for 19 columns", by simp [runUpserts, hs, hb, hexec]⟩

/-- A batch the upsert loop entirely skips commits with the working
state unchanged. -/
theorem runUpserts_all_skipped (st : List DBRow) :
    ∀ l : List Row, (∀ r ∈ l, rowNotSkipped r = false) →
      runUpserts st l = .ok st := by
  intro l
  induction l with
  | nil => intro _; rfl
  | cons r rest ih =>
    intro hall
    have hr := hall r (List.mem_cons_self r rest)
    cases hs : r.stockNo with
    | none =>
        rw [rowNotSkipped, hs] at hr
        simp at hr
    | some s =>
        rw [rowNotSkipped, hs] at hr
        have hb : pyStrip s = "" := by simpa using hr
        have := ih fun x hx => hall x (List.mem_cons_of_mem r hx)
        simp [runUpserts, hs, hb, this]

/-! ## Claim theorems -/

/-- C1: the relational upsert of the Edit page is supposed to execute a
single insert-or-overwrite statement per record keyed by `StockNo` and,
after success, a load should reflect the changes.  In fact the statement
lists 19 columns against 20 `VALUES` placeholders, so sqlite rejects it
(`"20 values for 19 columns"`) and the upsert of any batch containing a
processable record always raises, never succeeding. -/
theorem C1_upsert_statement_never_succeeds :
    upsertInsertCols.length = 19 ∧ upsertPlaceholderCount = 20 ∧
    ∀ (store : List DBRow) (full edited : List Row) (q : String),
      (∃ r ∈ edited, rowNotSkipped r = true) →
      ∃ msg, upsert_rows store full edited q = .error msg := by
  refine ⟨by decide, rfl, ?_⟩
  intro store full edited q h
  exact runUpserts_isError _ edited h

/-- C1 witness: a concrete one-row edited batch with `StockNo "A1"`. -/
theorem C1_upsert_statement_never_succeeds_witness :
    (∃ r ∈ [editedRowA1], rowNotSkipped r = true) ∧
    ∃ msg, upsert_rows demoStore [] [editedRowA1] "q" = .error msg :=
  ⟨by decide,
   C1_upsert_statement_never_succeeds.2.2 demoStore [] [editedRowA1] "q" (by decide)⟩

/-- C9 counterexample: an edited batch holding one row whose `StockNo`
is blank saves "successfully" — the save path reports no error and the
stored table is unchanged, so the row silently disappears. -/
theorem C9_counterexample_blank_row_vanishes :
    upsert_rows demoStore [] [blankStockRow] "q" = .ok demoStore ∧
    blankStockRow.stockNo = some "" ∧ blankStockRow.make = some "Toyota" := by
  decide

/-- C9 (amended): on the relational edit save path a row whose
`StockNo` is blank is silently skipped: a batch of such rows commits
without error and without persisting anything (under a non-empty search
filter, where no deletions run), and the handler then reports success. -/
theorem C9_blank_rows_silently_skipped :
    ∀ (store : List DBRow) (full edited : List Row) (q : String),
      q ≠ "" → (∀ r ∈ edited, rowNotSkipped r = false) →
      upsert_rows store full edited q = .ok store := by
  intro store full edited q hq hall
  unfold upsert_rows
  rw [if_neg hq]
  exact runUpserts_all_skipped store edited hall

/-- C9 witness: the blank-keyed row against a concrete store. -/
theorem C9_blank_rows_silently_skipped_witness :
    ("q" ≠ "") ∧ (∀ r ∈ [blankStockRow], rowNotSkipped r = false) ∧
    upsert_rows demoStore [blankStockRow] [blankStockRow] "q" = .ok demoStore :=
  ⟨by decide, by decide,
   C9_blank_rows_silently_skipped demoStore [blankStockRow] [blankStockRow] "q"
     (by decide) (by decide)⟩

/-- C2: validation is claimed to emit one message per violated rule
(e.g. a row with missing `make` and out-of-range `year` giving two
messages).  In fact `str(pd.NA)` is the non-blank `"<NA>"`, so the
required-field checks for `StockNo`/`Make`/`Model` never fire on missing
values — the example row yields only the year message — while the VIN
length check fires spuriously on a *missing* VIN. -/
theorem C2_missing_make_unreported :
    validate_rows [missingMakeRow] = ["row 1: Year must be between 1900 and 2100."] ∧
    missingMakeRow.make = none ∧
    vinErrors "row 1" none =
      ["row 1: VIN should be 17 characters (optional but if set, must be 17)."] := by
  decide

/-- C3: inserting a record whose `StockNo` matches a stored one is
rejected by both Add flows with a duplicate-key message, and the stored
collection is left unchanged (no write happens on validation failure). -/
theorem C3_duplicate_stockNo_rejected :
    (∀ (df : List Row) (i : AddInput),
       i.stockno ≠ "" → i.stockno ∈ stockStrs df →
       (appAddSubmit df i).2 = df ∧
       ("StockNo `" ++ i.stockno ++ "` already exists.") ∈ (appAddSubmit df i).1) ∧
    (∀ (store : List DBRow) (i : AddInput),
       i.stockno ≠ "" → i.stockno ∈ dbExistingStockNos store →
       (dbAddSubmit store i).2 = store ∧
       ("StockNo `" ++ i.stockno ++ "` already exists.") ∈ (dbAddSubmit store i).1) := by
  constructor
  · intro df i h1 h2
    have hmem : ("StockNo `" ++ i.stockno ++ "` already exists.") ∈ appAddErrors df i := by
      unfold appAddErrors
      exact List.mem_append_left _ (List.mem_append_right _ (mem_if_singleton_of ⟨h1, h2⟩))
    have hne : appAddErrors df i ≠ [] := List.ne_nil_of_mem hmem
    rw [show appAddSubmit df i = (appAddErrors df i, df) from by
      simp only [appAddSubmit, if_neg hne]]
    exact ⟨rfl, hmem⟩
  · intro store i h1 h2
    have hmem : ("StockNo `" ++ i.stockno ++ "` already exists.") ∈ dbAddErrors store i := by
      unfold dbAddErrors
      exact List.mem_append_right _ (mem_if_singleton_of ⟨h1, h2⟩)
    have hne : dbAddErrors store i ≠ [] := List.ne_nil_of_mem hmem
    rw [show dbAddSubmit store i = (dbAddErrors store i, store) from by
      simp only [dbAddSubmit, if_neg hne]]
    exact ⟨rfl, hmem⟩

/-- C3 witness: adding `StockNo "A1"` against stores that already hold
`"A1"`, in both variants. -/
theorem C3_duplicate_stockNo_rejected_witness :
    (dupAddInput.stockno ≠ "") ∧
    dupAddInput.stockno ∈ stockStrs [missingMakeRow] ∧
    dupAddInput.stockno ∈ dbExistingStockNos [storedA1] ∧
    (appAddSubmit [missingMakeRow] dupAddInput).2 = [missingMakeRow] ∧
    ("StockNo `" ++ dupAddInput.stockno ++ "` already exists.") ∈
      (appAddSubmit [missingMakeRow] dupAddInput).1 ∧
    (dbAddSubmit [storedA1] dupAddInput).2 = [storedA1] ∧
    ("StockNo `" ++ dupAddInput.stockno ++ "` already exists.") ∈
      (dbAddSubmit [storedA1] dupAddInput).1 := by
  refine ⟨by decide, by decide, by decide, ?_, ?_, ?_, ?_⟩
  · exact (C3_duplicate_stockNo_rejected.1 [missingMakeRow] dupAddInput
      (by decide) (by decide)).1
  · exact (C3_duplicate_stockNo_rejected.1 [missingMakeRow] dupAddInput
      (by decide) (by decide)).2
  · exact (C3_duplicate_stockNo_rejected.2 [storedA1] dupAddInput
      (by decide) (by decide)).1
  · exact (C3_duplicate_stockNo_rejected.2 [storedA1] dupAddInput
      (by decide) (by decide)).2

/-- C8 counterexample: the non-integer year `2020.5` passes validation
with no message at all — `int(y)` truncates it to `2020`, which is in
range — refuting "non-integer-valued ... produces a violation
message". -/
theorem C8_counterexample_fractional_year_accepted :
    validate_rows [fractionalYearRow] = [] ∧
    fractionalYearRow.year = some (mkRat 4041 2) ∧
    (mkRat 4041 2).den ≠ 1 := by
  decide

/-- C8 (amended): the year checks of `validate_rows`: a missing year is
reported as required; a present year `q` is reported if and only if its
truncation toward zero (`int(q)`) falls outside `[1900, 2100]` — a
non-integer year in range yields no message.  (A non-numeric cell in a
coerced numeric column is already the missing marker.) -/
theorem C8_year_truncated_range_check :
    ∀ (i : ℕ) (r : Row),
      (r.year = none → (rowId i ++ ": Year is required.") ∈ rowErrors i r) ∧
      (∀ q : ℚ, r.year = some q →
        ((rowId i ++ ": Year must be between 1900 and 2100.") ∈ rowErrors i r ↔
          (pyInt q < 1900 ∨ 2100 < pyInt q))) := by
  intro i r
  constructor
  · intro hy
    unfold rowErrors
    refine List.mem_append_left _ (List.mem_append_left _ (List.mem_append_right _ ?_))
    rw [hy]
    exact List.mem_singleton.mpr rfl
  · intro q hy
    constructor
    · intro hmem
      unfold rowErrors at hmem
      rw [hy] at hmem
      simp only [List.mem_append] at hmem
      rcases hmem with ((((h | h) | h) | h) | h) | h
      · exact absurd ((string_append_right_inj _ _ _).mp (mem_if_singleton h).1) (by decide)
      · exact absurd ((string_append_right_inj _ _ _).mp (mem_if_singleton h).1) (by decide)
      · exact absurd ((string_append_right_inj _ _ _).mp (mem_if_singleton h).1) (by decide)
      · unfold yearErrors at h
        exact (mem_if_singleton h).2
      · cases hp : r.price with
        | none =>
            rw [hp] at h
            unfold priceErrors at h
            exact absurd ((string_append_right_inj _ _ _).mp (List.mem_singleton.mp h))
              (by decide)
        | some p =>
            rw [hp] at h
            unfold priceErrors at h
            exact absurd ((string_append_right_inj _ _ _).mp (mem_if_singleton h).1)
              (by decide)
      · unfold vinErrors at h
        exact absurd ((string_append_right_inj _ _ _).mp (mem_if_singleton h).1) (by decide)
    · intro hc
      unfold rowErrors
      refine List.mem_append_left _ (List.mem_append_left _ (List.mem_append_right _ ?_))
      rw [hy]
      unfold yearErrors
      exact mem_if_singleton_of hc

/-- C8 witness: `Year = 2500` is reported, via the amended theorem. -/
theorem C8_year_truncated_range_check_witness :
    year2500Row.year = some 2500 ∧
    (rowId 0 ++ ": Year must be between 1900 and 2100.") ∈ rowErrors 0 year2500Row :=
  ⟨rfl,
   ((C8_year_truncated_range_check 0 year2500Row).2 2500 rfl).mpr (by decide)⟩

/-- C5: pagination returns the half-open slice `[(K-1)·P, (K-1)·P+P)`
of the filtered-and-sorted sequence, with the requested page clamped to
`[1, max 1 ⌈total/P⌉]`; for `total = 25`, `P = 12` the pages are `1..3`,
page 3 holds exactly one record, and page 4 clamps to page 3. -/
theorem C5_pagination_clamped_slice :
    (∀ (rows : List ℕ) (P K : ℕ), P ∈ allowedPageSizes →
       1 ≤ clampPage K (pagesFor rows.length P) ∧
       clampPage K (pagesFor rows.length P) ≤ pagesFor rows.length P ∧
       ((pagesFor rows.length P : ℤ) = max 1 ⌈(rows.length : ℚ) / (P : ℚ)⌉) ∧
       ∀ j : ℕ, (browsePage rows P K)[j]? =
         if j < P then rows[(clampPage K (pagesFor rows.length P) - 1) * P + j]?
         else none) ∧
    pagesFor 25 12 = 3 ∧
    browsePage (List.range 25) 12 3 = [24] ∧
    browsePage (List.range 25) 12 4 = browsePage (List.range 25) 12 3 := by
  refine ⟨?_, by decide, by decide, by decide⟩
  intro rows P K hP
  have hP0 : 0 < P := by fin_cases hP <;> norm_num
  have hPq : (0 : ℚ) < (P : ℚ) := by exact_mod_cast hP0
  refine ⟨le_min (le_max_left 1 K) (le_max_left 1 _), min_le_right _ _, ?_, ?_⟩
  · -- the page count is max 1 ⌈total / P⌉
    have hdm := Nat.div_add_mod' (rows.length + P - 1) P
    have hml : (rows.length + P - 1) % P < P := Nat.mod_lt _ hP0
    have h1 : rows.length ≤ ceilPages rows.length P * P := by
      unfold ceilPages
      omega
    have h2 : ceilPages rows.length P * P < rows.length + P := by
      unfold ceilPages
      omega
    have hceil : ⌈(rows.length : ℚ) / (P : ℚ)⌉ = (ceilPages rows.length P : ℤ) := by
      rw [Int.ceil_eq_iff]
      constructor
      · rw [lt_div_iff₀ hPq]
        have : ((ceilPages rows.length P * P : ℕ) : ℚ) < ((rows.length + P : ℕ) : ℚ) := by
          exact_mod_cast h2
        push_cast at this ⊢
        nlinarith
      · rw [div_le_iff₀ hPq]
        have : ((rows.length : ℕ) : ℚ) ≤ ((ceilPages rows.length P * P : ℕ) : ℚ) := by
          exact_mod_cast h1
        push_cast at this ⊢
        nlinarith
    unfold pagesFor
    rw [hceil]
    push_cast [Nat.cast_max]
    rfl
  · -- the page is the half-open slice
    intro j
    show ((rows.drop ((clampPage K (pagesFor rows.length P) - 1) * P)).take P)[j]? = _
    rw [List.getElem?_take, List.getElem?_drop]

/-- C5 witness: a 30-element sequence, page 2 of size 12. -/
theorem C5_pagination_clamped_slice_witness :
    (12 ∈ allowedPageSizes) ∧
    (browsePage (List.range 30) 12 2)[0]? =
      (if 0 < 12 then
        (List.range 30)[(clampPage 2 (pagesFor (List.range 30).length 12) - 1) * 12 + 0]?
       else none) :=
  ⟨by decide,
   (C5_pagination_clamped_slice.1 (List.range 30) 12 2 (by decide)).2.2.2 0⟩

/-- C7 counterexample: a column whose non-missing values are all `5` has
`(min, max) = (5, 5)` but the computed bounds are `(5, 6)`; and when the
column is entirely missing the default-bounds range filter excludes
every record (missing compares false), rather than excluding none. -/
theorem C7_counterexample_bounds_and_filter :
    numeric_bounds [some 5, some 5] (0, 1) ≠ (5, 5) ∧
    numeric_bounds [some 5, some 5] (0, 1) = (5, 6) ∧
    numeric_bounds [none] (0, 100000) = (0, 100000) ∧
    rangeFilter (fun r => r.price) 0 100000 [noPriceRow] = [] := by
  decide

/-- C7 (amended): with non-missing values present the slider bounds are
the *truncations* `(int(min), int(max))`, widened to `(lo, lo+1)` when
they coincide; with no values the default is returned; and the range
filter keeps exactly the records with a present value inside the
bounds — in particular it drops every record whose value is missing. -/
theorem C7_bounds_and_filter_characterisation :
    (∀ (s : List (Option ℚ)) (d : ℤ × ℤ), s.filterMap id = [] →
       numeric_bounds s d = d) ∧
    (∀ (s : List (Option ℚ)) (d : ℤ × ℤ) (m M : ℚ),
       (s.filterMap id).min? = some m → (s.filterMap id).max? = some M →
       numeric_bounds s d =
         if pyInt m = pyInt M then (pyInt m, pyInt m + 1)
         else (pyInt m, pyInt M)) ∧
    (∀ (get : Row → Option ℚ) (lo hi : ℤ) (rows : List Row) (r : Row),
       r ∈ rangeFilter get lo hi rows ↔
         (r ∈ rows ∧ ∃ p, get r = some p ∧ (lo : ℚ) ≤ p ∧ p ≤ (hi : ℚ))) := by
  refine ⟨?_, ?_, ?_⟩
  · intro s d h
    unfold numeric_bounds
    rw [h]
  · intro s d m M hm hM
    unfold numeric_bounds
    cases hfm : s.filterMap id with
    | nil =>
        rw [hfm] at hm
        exact absurd hm (by simp)
    | cons v vs =>
        rw [hfm] at hm hM
        have hm' : vs.foldl min v = m := by
          have hdef : (v :: vs).min? = some (vs.foldl min v) := rfl
          rw [hdef] at hm
          exact Option.some.inj hm
        have hM' : vs.foldl max v = M := by
          have hdef : (v :: vs).max? = some (vs.foldl max v) := rfl
          rw [hdef] at hM
          exact Option.some.inj hM
        subst hm' hM'
        simp only [hfm]
  · intro get lo hi rows r
    constructor
    · intro h
      obtain ⟨hr, hp⟩ := List.mem_filter.mp h
      refine ⟨hr, ?_⟩
      cases hg : get r with
      | none =>
          rw [hg] at hp
          simp [inRange] at hp
      | some p =>
          rw [hg] at hp
          unfold inRange at hp
          simp only [Bool.and_eq_true, decide_eq_true_eq] at hp
          exact ⟨p, rfl, hp.1, hp.2⟩
    · rintro ⟨hr, p, hg, h1, h2⟩
      refine List.mem_filter.mpr ⟨hr, ?_⟩
      rw [hg]
      unfold inRange
      simp only [Bool.and_eq_true, decide_eq_true_eq]
      exact ⟨h1, h2⟩

/-- C7 witness: the degenerate column `[5, 5]` and the missing-price
record, via the amended theorem. -/
theorem C7_bounds_and_filter_characterisation_witness :
    (([some 5, some 5] : List (Option ℚ)).filterMap id).min? = some 5 ∧
    (([some 5, some 5] : List (Option ℚ)).filterMap id).max? = some 5 ∧
    numeric_bounds [some 5, some 5] (0, 1) =
      (if pyInt (5 : ℚ) = pyInt (5 : ℚ) then (pyInt (5 : ℚ), pyInt (5 : ℚ) + 1)
       else (pyInt (5 : ℚ), pyInt (5 : ℚ))) ∧
    (noPriceRow ∈ rangeFilter (fun r => r.price) 0 100000 [noPriceRow] ↔
      (noPriceRow ∈ [noPriceRow] ∧
        ∃ p, noPriceRow.price = some p ∧ ((0 : ℤ) : ℚ) ≤ p ∧ p ≤ ((100000 : ℤ) : ℚ))) :=
  ⟨by decide, by decide,
   C7_bounds_and_filter_characterisation.2.1 [some 5, some 5] (0, 1) 5 5
     (by decide) (by decide),
   C7_bounds_and_filter_characterisation.2.2 (fun r => r.price) 0 100000
     [noPriceRow] noPriceRow⟩

/-- The upload handler imports whenever every required column is
present. -/
theorem uploadImport_of_required (cols : List String) (rows : List Row)
    (st : List DBRow) (h : missingRequired cols = []) :
    uploadImport cols rows st = .ok (import_csv_to_db rows st) := by
  unfold uploadImport
  rw [if_neg fun hh => hh h]

/-- C10: the CSV import checks only that the required columns are
present; each row is then written with insert-or-replace keyed by
`StockNo`, silently overwriting every non-key column of a stored record
with the same key; and the import succeeds even when the batch violates
the per-row validation rules (none are applied on this path). -/
theorem C10_import_replaces_without_validation :
    (∀ (cols : List String) (rows : List Row) (st : List DBRow),
       missingRequired cols = [] →
       uploadImport cols rows st = .ok (import_csv_to_db rows st)) ∧
    (∀ (st : List DBRow) (r : Row) (k : String),
       r.stockNo = some k → (∃ x ∈ st, x.stockNo = some k) →
       (import_csv_to_db [r] st).1 =
         st.map fun x => if x.stockNo = some k then dbRowOfImport r else x) ∧
    (∀ (cols : List String) (rows : List Row) (st : List DBRow),
       missingRequired cols = [] → validate_rows rows ≠ [] →
       (uploadImport cols rows st).isOk = true) := by
  refine ⟨?_, ?_, ?_⟩
  · exact uploadImport_of_required
  · intro st r k hk hex
    obtain ⟨x, hx, hxk⟩ := hex
    have hany : (st.any fun y => y.stockNo = some k) = true :=
      List.any_eq_true.mpr ⟨x, hx, by simp [hxk]⟩
    have hds : (dbRowOfImport r).stockNo = some k := hk
    simp only [import_csv_to_db, List.foldl_cons, List.foldl_nil]
    simp only [insertOrReplace, hds, hany, if_true]
  · intro cols rows st h _
    rw [uploadImport_of_required cols rows st h]
    rfl

/-- C10 witness: importing a rule-violating row keyed `"A1"` over a
store holding `"A1"`. -/
theorem C10_import_replaces_without_validation_witness :
    missingRequired REQUIRED_COLUMNS = [] ∧
    invalidImportRow.stockNo = some "A1" ∧
    (∃ x ∈ [storedA1], x.stockNo = some "A1") ∧
    validate_rows [invalidImportRow] ≠ [] ∧
    uploadImport REQUIRED_COLUMNS [invalidImportRow] [storedA1] =
      .ok (import_csv_to_db [invalidImportRow] [storedA1]) ∧
    (import_csv_to_db [invalidImportRow] [storedA1]).1 =
      [storedA1].map (fun x => if x.stockNo = some "A1" then dbRowOfImport invalidImportRow else x) ∧
    (uploadImport REQUIRED_COLUMNS [invalidImportRow] [storedA1]).isOk = true := by
  refine ⟨by decide, rfl, by decide, by decide, ?_, ?_, ?_⟩
  · exact C10_import_replaces_without_validation.1 REQUIRED_COLUMNS
      [invalidImportRow] [storedA1] (by decide)
  · exact C10_import_replaces_without_validation.2.1 [storedA1]
      invalidImportRow "A1" rfl (by decide)
  · exact C10_import_replaces_without_validation.2.2 REQUIRED_COLUMNS
      [invalidImportRow] [storedA1] (by decide) (by decide)

/-! ### Decimal cells: parsing inverts rendering -/

theorem charToDigit?_digitToChar {d : ℕ} (h : d < 10) :
    charToDigit? (digitToChar d) = some d := by
  interval_cases d <;> decide

theorem natDigitsFuel_eq {fuel : ℕ} : ∀ {n : ℕ}, n ≤ fuel →
    natDigitsFuel fuel n = Nat.digits 10 n := by
  induction fuel with
  | zero =>
      intro n hn
      interval_cases n
      rw [Nat.digits_zero]
      rfl
  | succ fuel ih =>
      intro n hn
      cases n with
      | zero => rw [Nat.digits_zero]; rfl
      | succ n =>
          show (n + 1) % 10 :: natDigitsFuel fuel ((n + 1) / 10) = _
          rw [ih (show (n + 1) / 10 ≤ fuel by omega),
            Nat.digits_def' (b := 10) (by norm_num) (Nat.succ_pos n)]

theorem natDigits_eq (n : ℕ) : natDigits n = Nat.digits 10 n :=
  natDigitsFuel_eq le_rfl

theorem charsFold_digits (ds : List ℕ) :
    ∀ a : ℕ, (∀ d ∈ ds, d < 10) →
      List.foldl (fun acc c => acc.bind fun a => (charToDigit? c).map fun d => a * 10 + d)
        (some a) (ds.map digitToChar) =
      some (List.foldl (fun x d => x * 10 + d) a ds) := by
  induction ds with
  | nil => intro a _; rfl
  | cons d tl ih =>
      intro a hall
      have h1 : charToDigit? (digitToChar d) = some d :=
        charToDigit?_digitToChar (hall d (List.mem_cons_self d tl))
      simp only [List.map_cons, List.foldl_cons, Option.some_bind, h1, Option.map_some']
      exact ih _ fun x hx => hall x (List.mem_cons_of_mem d hx)

theorem charsToNat?_map_digits {ds : List ℕ} (h : ∀ d ∈ ds, d < 10) :
    charsToNat? (ds.map digitToChar) =
      some (List.foldl (fun x d => x * 10 + d) 0 ds) :=
  charsFold_digits ds 0 h

theorem foldl_base10 (L : List ℕ) :
    ∀ a : ℕ, List.foldl (fun x d => x * 10 + d) a L.reverse =
      a * 10 ^ L.length + Nat.ofDigits 10 L := by
  induction L with
  | nil => intro a; simp [Nat.ofDigits_nil]
  | cons d tl ih =>
      intro a
      simp only [List.reverse_cons, List.foldl_append, List.foldl_cons, List.foldl_nil,
        ih, Nat.ofDigits_cons, List.length_cons]
      ring

theorem charsToNat?_natToChars (n : ℕ) :
    charsToNat? (natToChars n) = some n := by
  by_cases h : n = 0
  · subst h; rfl
  · unfold natToChars
    rw [if_neg h, natDigits_eq]
    rw [charsToNat?_map_digits
      (fun d hd => Nat.digits_lt_base (by norm_num) (List.mem_reverse.mp hd))]
    rw [foldl_base10]
    simp [Nat.ofDigits_digits]

theorem ofDigits_replicate_zero : ∀ j : ℕ, Nat.ofDigits 10 (List.replicate j 0) = 0 := by
  intro j
  induction j with
  | zero => rfl
  | succ j ih => simp [List.replicate_succ, Nat.ofDigits_cons, ih]

theorem natToCharsPad_parse {n k : ℕ} (h : n < 10 ^ k) :
    charsToNat? (natToCharsPad n k) = some n ∧ (natToCharsPad n k).length = k := by
  have hlen : (Nat.digits 10 n).length ≤ k := by
    by_cases hn : n = 0
    · subst hn; simp
    · have := (Nat.lt_pow_iff_log_lt (by norm_num) hn).mp h
      rw [Nat.digits_len 10 n (by norm_num) hn]
      omega
  have hLd : ∀ d ∈ Nat.digits 10 n ++
      List.replicate (k - (Nat.digits 10 n).length) 0, d < 10 := by
    intro d hd
    rcases List.mem_append.mp hd with h1 | h1
    · exact Nat.digits_lt_base (by norm_num) h1
    · have := List.eq_of_mem_replicate h1
      omega
  have hVal : Nat.ofDigits 10 (Nat.digits 10 n ++
      List.replicate (k - (Nat.digits 10 n).length) 0) = n := by
    rw [Nat.ofDigits_append, Nat.ofDigits_digits, ofDigits_replicate_zero]
    ring
  constructor
  · unfold natToCharsPad
    rw [natDigits_eq]
    rw [charsToNat?_map_digits fun d hd => hLd d (List.mem_reverse.mp hd)]
    rw [foldl_base10]
    rw [hVal]
    simp
  · unfold natToCharsPad
    rw [natDigits_eq]
    simp only [List.length_map, List.length_reverse, List.length_append,
      List.length_replicate]
    omega

theorem mem_map_digitToChar {c : Char} {ds : List ℕ} (hds : ∀ d ∈ ds, d < 10)
    (hc : charToDigit? c = none) : c ∉ ds.map digitToChar := by
  intro hmem
  obtain ⟨d, hd, hdc⟩ := List.mem_map.mp hmem
  rw [← hdc, charToDigit?_digitToChar (hds d hd)] at hc
  cases hc

theorem not_mem_natToChars {c : Char} (hc : charToDigit? c = none) (n : ℕ) :
    c ∉ natToChars n := by
  unfold natToChars
  split
  · intro h
    rw [List.mem_singleton] at h
    subst h
    exact absurd hc (by decide)
  · rw [natDigits_eq]
    exact mem_map_digitToChar
      (fun d hd => Nat.digits_lt_base (by norm_num) (List.mem_reverse.mp hd)) hc

theorem not_mem_natToCharsPad {c : Char} (hc : charToDigit? c = none) (n k : ℕ) :
    c ∉ natToCharsPad n k := by
  unfold natToCharsPad
  rw [natDigits_eq]
  refine mem_map_digitToChar ?_ hc
  intro d hd
  rcases List.mem_append.mp (List.mem_reverse.mp hd) with h1 | h1
  · exact Nat.digits_lt_base (by norm_num) h1
  · have := List.eq_of_mem_replicate h1
    omega

theorem natToChars_ne_nil (n : ℕ) : natToChars n ≠ [] := by
  by_cases h : n = 0
  · simp [natToChars, h]
  · simp [natToChars, h, natDigits_eq, Nat.digits_ne_nil_iff_ne_zero]

/-- The digit body of `renderScaled` (everything after the optional
sign). -/
theorem renderBody_ne_nil (n k : ℕ) :
    (if k = 0 then natToChars n
     else natToChars (n / 10 ^ k) ++ '.' :: natToCharsPad (n % 10 ^ k) k) ≠ [] := by
  split
  · exact natToChars_ne_nil n
  · simp [natToChars_ne_nil]

theorem dash_not_mem_renderBody (n k : ℕ) :
    '-' ∉ (if k = 0 then natToChars n
      else natToChars (n / 10 ^ k) ++ '.' :: natToCharsPad (n % 10 ^ k) k) := by
  split
  · exact not_mem_natToChars (by decide) _
  · intro h
    rcases List.mem_append.mp h with h | h
    · exact not_mem_natToChars (by decide) _ h
    · rcases List.mem_cons.mp h with h | h
      · cases h
      · exact not_mem_natToCharsPad (by decide) _ _ h

theorem not_mem_renderScaled {c : Char} (hc : charToDigit? c = none)
    (h2 : c ≠ '-') (h3 : c ≠ '.') (m : ℤ) (k : ℕ) : c ∉ renderScaled m k := by
  unfold renderScaled
  intro hmem
  rcases List.mem_append.mp hmem with h | h
  · split at h
    · rw [List.mem_singleton] at h
      exact h2 h
    · simp at h
  · split at h
    · exact not_mem_natToChars hc _ h
    · rcases List.mem_append.mp h with h | h
      · exact not_mem_natToChars hc _ h
      · rcases List.mem_cons.mp h with h | h
        · exact h3 h
        · exact not_mem_natToCharsPad hc _ _ h

theorem renderScaled_ne_nil (m : ℤ) (k : ℕ) : renderScaled m k ≠ [] := by
  unfold renderScaled
  intro h
  rcases List.append_eq_nil.mp h with ⟨_, h2⟩
  exact renderBody_ne_nil m.natAbs k h2

theorem splitOn_of_not_mem {x : Char} {l : List Char} (h : x ∉ l) :
    l.splitOn x = [l] := by
  show l.splitOnP (· == x) = [l]
  refine List.splitOnP_eq_single _ _ ?_
  intro y hy
  simp only [beq_iff_eq]
  intro hxy
  exact h (hxy ▸ hy)

theorem splitOn_append_sep {x : Char} {a : List Char} (h : x ∉ a) (b : List Char) :
    (a ++ x :: b).splitOn x = a :: b.splitOn x := by
  show (a ++ x :: b).splitOnP (· == x) = a :: b.splitOnP (· == x)
  refine List.splitOnP_first _ _ ?_ x (by simp) b
  intro y hy
  simp only [beq_iff_eq]
  intro hxy
  exact h (hxy ▸ hy)

theorem parseUnsigned?_eq_one {l a : List Char} (h : l.splitOn '.' = [a]) :
    parseUnsigned? l =
      (if a = [] then none
       else (charsToNat? a).map fun n => ((n : ℕ) : ℚ)) := by
  unfold parseUnsigned?
  rw [h]

theorem parseUnsigned?_eq_two {l a b : List Char} (h : l.splitOn '.' = [a, b]) :
    parseUnsigned? l =
      (if a = [] ∧ b = [] then none
       else (charsToNat? a).bind fun ia =>
         (charsToNat? b).map fun ib =>
           mkRat ((ia * 10 ^ b.length + ib : ℕ) : ℤ) (10 ^ b.length)) := by
  unfold parseUnsigned?
  rw [h]

theorem parseUnsigned?_renderBody (n k : ℕ) :
    parseUnsigned? (if k = 0 then natToChars n
      else natToChars (n / 10 ^ k) ++ '.' :: natToCharsPad (n % 10 ^ k) k) =
    some (mkRat (n : ℤ) (10 ^ k)) := by
  by_cases hk : k = 0
  · subst hk
    rw [if_pos rfl]
    rw [parseUnsigned?_eq_one (splitOn_of_not_mem (not_mem_natToChars (by decide) n))]
    rw [if_neg (natToChars_ne_nil n), charsToNat?_natToChars]
    simp [Rat.mkRat_eq_div]
  · rw [if_neg hk]
    rw [parseUnsigned?_eq_two (by
      rw [splitOn_append_sep (not_mem_natToChars (by decide) _) _,
        splitOn_of_not_mem (not_mem_natToCharsPad (by decide) _ _)])]
    have hA : natToChars (n / 10 ^ k) ≠ [] := natToChars_ne_nil _
    rw [if_neg fun hab => hA hab.1]
    rw [charsToNat?_natToChars]
    have hmod : n % 10 ^ k < 10 ^ k := Nat.mod_lt _ (by positivity)
    obtain ⟨hval, hlen⟩ := natToCharsPad_parse hmod
    rw [hval]
    simp only [Option.some_bind, Option.map_some']
    rw [hlen, Nat.div_add_mod' n (10 ^ k)]

theorem parseQ?_cons (c : Char) (cs : List Char) :
    parseQ? (c :: cs) =
      if c = '-' then (parseUnsigned? cs).map Rat.neg
      else parseUnsigned? (c :: cs) := rfl

theorem parseQ?_of_no_dash {l : List Char} (hl : l ≠ []) (hd : '-' ∉ l) :
    parseQ? l = parseUnsigned? l := by
  cases l with
  | nil => cases hl rfl
  | cons c cs =>
      rw [parseQ?_cons,
        if_neg fun hc => hd (by rw [← hc]; exact List.mem_cons_self c cs)]

theorem parseQ?_renderQ {q : ℚ} {k : ℕ} (hk : decExp? q = some k) :
    parseQ? (renderQ q) = some q := by
  have hdvd : q.den ∣ 10 ^ k := by
    have := List.find?_some hk
    simpa using this
  have hc0 : (10 ^ k / q.den : ℕ) ≠ 0 := by
    intro h0
    have := Nat.div_mul_cancel hdvd
    rw [h0] at this
    simp at this
    exact absurd this (by positivity)
  have hcq : ((10 ^ k / q.den : ℕ) : ℚ) ≠ 0 := by
    exact_mod_cast hc0
  have hrat : mkRat (scaledNum q k) (10 ^ k) = q := by
    rw [Rat.mkRat_eq_div]
    rw [show ((scaledNum q k : ℤ) : ℚ) =
        ((10 ^ k / q.den : ℕ) : ℚ) * (q.num : ℚ) from by
      unfold scaledNum
      rw [Int.cast_mul, Int.cast_natCast, mul_comm]]
    rw [show ((10 ^ k : ℕ) : ℚ) =
        ((10 ^ k / q.den : ℕ) : ℚ) * ((q.den : ℕ) : ℚ) from by
      norm_cast
      rw [Nat.div_mul_cancel hdvd]]
    rw [mul_div_mul_left _ _ hcq]
    exact Rat.num_div_den q
  have hrq : renderQ q = renderScaled (scaledNum q k) k := by
    unfold renderQ
    rw [hk]
  rcases lt_or_ge (scaledNum q k) 0 with hneg | hpos
  · rw [hrq]
    unfold renderScaled
    rw [if_pos hneg, List.singleton_append]
    rw [parseQ?_cons, if_pos rfl, parseUnsigned?_renderBody, Option.map_some']
    rw [show Rat.neg (mkRat ((scaledNum q k).natAbs : ℤ) (10 ^ k)) =
        -(mkRat ((scaledNum q k).natAbs : ℤ) (10 ^ k)) from rfl]
    rw [Rat.neg_mkRat, show -(((scaledNum q k).natAbs : ℕ) : ℤ) = scaledNum q k from by
      rw [Int.ofNat_natAbs_of_nonpos (le_of_lt hneg)]
      ring]
    rw [hrat]
  · rw [hrq]
    unfold renderScaled
    rw [if_neg (not_lt.mpr hpos), List.nil_append]
    rw [parseQ?_of_no_dash (renderBody_ne_nil _ _) (dash_not_mem_renderBody _ _),
      parseUnsigned?_renderBody]
    rw [show (((scaledNum q k).natAbs : ℕ) : ℤ) = scaledNum q k from
      Int.natAbs_of_nonneg hpos]
    rw [hrat]

/-! ### Cells, lines and the whole-file round trip -/

theorem parseTextCell_textCell {o : Option String} (h : goodText o = true) :
    parseTextCell (textCell o) = o := by
  cases o with
  | none => rfl
  | some s =>
      simp only [goodText, Bool.and_eq_true, decide_eq_true_eq] at h
      obtain ⟨⟨⟨h1, h2⟩, _⟩, _⟩ := h
      show parseTextCell s.data = some s
      unfold parseTextCell
      have hsd : s.data ≠ [] := by
        intro hnil
        apply h1
        obtain ⟨l⟩ := s
        have hl : l = [] := hnil
        subst hl
        rfl
      rw [if_neg hsd, h2]

theorem parseNumCell_numCell {o : Option ℚ} (h : goodNum o = true) :
    parseNumCell (numCell o) = o := by
  cases o with
  | none => rfl
  | some q =>
      simp only [goodNum, Option.isSome_iff_exists] at h
      obtain ⟨k, hk⟩ := h
      show parseNumCell (renderQ q) = some q
      have hrq : renderQ q = renderScaled (scaledNum q k) k := by
        unfold renderQ
        rw [hk]
      unfold parseNumCell
      rw [hrq, if_neg (renderScaled_ne_nil _ _), ← hrq]
      exact parseQ?_renderQ hk

theorem textCell_sep_free {o : Option String} (h : goodText o = true) :
    ',' ∉ textCell o ∧ '\n' ∉ textCell o := by
  cases o with
  | none => simp [textCell]
  | some s =>
      simp only [goodText, Bool.and_eq_true, decide_eq_true_eq] at h
      exact ⟨h.1.2, h.2⟩

theorem numCell_sep_free {o : Option ℚ} (h : goodNum o = true) :
    ',' ∉ numCell o ∧ '\n' ∉ numCell o := by
  cases o with
  | none => simp [numCell]
  | some q =>
      simp only [goodNum, Option.isSome_iff_exists] at h
      obtain ⟨k, hk⟩ := h
      show ',' ∉ renderQ q ∧ '\n' ∉ renderQ q
      have hrq : renderQ q = renderScaled (scaledNum q k) k := by
        unfold renderQ
        rw [hk]
      rw [hrq]
      exact ⟨not_mem_renderScaled (by decide) (by decide) (by decide) _ _,
        not_mem_renderScaled (by decide) (by decide) (by decide) _ _⟩

theorem goodRow_fields {r : Row} (h : goodRow r = true) :
    goodText r.stockNo = true ∧ goodText r.make = true ∧ goodText r.model = true ∧
    goodNum r.year = true ∧ goodText r.trim = true ∧ goodText r.bodyStyle = true ∧
    goodText r.transmission = true ∧ goodText r.fuel = true ∧
    goodText r.engine = true ∧ goodText r.drivetrain = true ∧
    goodNum r.mileage = true ∧ goodText r.exteriorColor = true ∧
    goodText r.interiorColor = true ∧ goodText r.vin = true ∧
    goodNum r.price = true ∧ goodText r.condition = true ∧
    goodText r.features = true ∧ goodText r.location = true ∧
    goodText r.photo = true := by
  simp only [goodRow, Bool.and_eq_true] at h
  tauto

theorem rowCells_sep_free {r : Row} (h : goodRow r = true) :
    ∀ cell ∈ rowCells r, ',' ∉ cell ∧ '\n' ∉ cell := by
  obtain ⟨h1, h2, h3, h4, h5, h6, h7, h8, h9, h10, h11, h12, h13, h14, h15,
    h16, h17, h18, h19⟩ := goodRow_fields h
  intro cell hcell
  simp only [rowCells, List.mem_cons, List.not_mem_nil, or_false] at hcell
  rcases hcell with rfl | rfl | rfl | rfl | rfl | rfl | rfl | rfl | rfl | rfl |
    rfl | rfl | rfl | rfl | rfl | rfl | rfl | rfl | rfl
  exacts [textCell_sep_free h1, textCell_sep_free h2, textCell_sep_free h3,
    numCell_sep_free h4, textCell_sep_free h5, textCell_sep_free h6,
    textCell_sep_free h7, textCell_sep_free h8, textCell_sep_free h9,
    textCell_sep_free h10, numCell_sep_free h11, textCell_sep_free h12,
    textCell_sep_free h13, textCell_sep_free h14, numCell_sep_free h15,
    textCell_sep_free h16, textCell_sep_free h17, textCell_sep_free h18,
    textCell_sep_free h19]

theorem intercalate_cons₂ (s a b : List Char) (t : List (List Char)) :
    List.intercalate s (a :: b :: t) = a ++ s ++ List.intercalate s (b :: t) := by
  simp [List.intercalate, List.intersperse_cons_cons, List.flatten_cons,
    List.append_assoc]

theorem not_mem_intercalate {c sep : Char} (hcs : c ≠ sep) :
    ∀ ls : List (List Char), (∀ x ∈ ls, c ∉ x) → c ∉ List.intercalate [sep] ls := by
  intro ls
  induction ls with
  | nil =>
      intro _
      simp [List.intercalate]
  | cons a t ih =>
      intro hall
      cases t with
      | nil => simpa [List.intercalate] using hall a (by simp)
      | cons b t2 =>
          rw [intercalate_cons₂]
          intro hmem
          rcases List.mem_append.mp hmem with h | h
          · rcases List.mem_append.mp h with h | h
            · exact hall a (by simp) h
            · rw [List.mem_singleton] at h
              exact hcs h
          · exact ih (fun x hx => hall x (by simp [hx])) h

theorem parseLine_eq {l c1 c2 c3 c4 c5 c6 c7 c8 c9 c10 c11 c12 c13 c14 c15 c16
    c17 c18 c19 : List Char}
    (h : l.splitOn ',' = [c1, c2, c3, c4, c5, c6, c7, c8, c9, c10, c11, c12,
      c13, c14, c15, c16, c17, c18, c19]) :
    parseLine l = some
      { stockNo := parseTextCell c1, make := parseTextCell c2,
        model := parseTextCell c3, year := parseNumCell c4,
        trim := parseTextCell c5, bodyStyle := parseTextCell c6,
        transmission := parseTextCell c7, fuel := parseTextCell c8,
        engine := parseTextCell c9, drivetrain := parseTextCell c10,
        mileage := parseNumCell c11, exteriorColor := parseTextCell c12,
        interiorColor := parseTextCell c13, vin := parseTextCell c14,
        price := parseNumCell c15, condition := parseTextCell c16,
        features := parseTextCell c17, location := parseTextCell c18,
        photo := parseTextCell c19 } := by
  unfold parseLine
  rw [h]

theorem splitOn_rowCells {r : Row} (h : goodRow r = true) :
    (List.intercalate [','] (rowCells r)).splitOn ',' = rowCells r := by
  refine List.splitOn_intercalate _ ',' ?_ (by simp [rowCells])
  intro cell hcell
  exact (rowCells_sep_free h cell hcell).1

theorem parseLine_roundtrip {r : Row} (h : goodRow r = true) :
    parseLine (List.intercalate [','] (rowCells r)) = some r := by
  obtain ⟨h1, h2, h3, h4, h5, h6, h7, h8, h9, h10, h11, h12, h13, h14, h15,
    h16, h17, h18, h19⟩ := goodRow_fields h
  rw [parseLine_eq (splitOn_rowCells h)]
  rw [parseTextCell_textCell h1, parseTextCell_textCell h2,
    parseTextCell_textCell h3, parseNumCell_numCell h4,
    parseTextCell_textCell h5, parseTextCell_textCell h6,
    parseTextCell_textCell h7, parseTextCell_textCell h8,
    parseTextCell_textCell h9, parseTextCell_textCell h10,
    parseNumCell_numCell h11, parseTextCell_textCell h12,
    parseTextCell_textCell h13, parseTextCell_textCell h14,
    parseNumCell_numCell h15, parseTextCell_textCell h16,
    parseTextCell_textCell h17, parseTextCell_textCell h18,
    parseTextCell_textCell h19]

theorem filterMap_parseLine_lines :
    ∀ rows : List Row, (∀ r ∈ rows, goodRow r = true) →
      (rows.map fun r => List.intercalate [','] (rowCells r)).filterMap parseLine
        = rows := by
  intro rows
  induction rows with
  | nil => intro _; rfl
  | cons r t ih =>
      intro hall
      simp only [List.map_cons, List.filterMap_cons,
        parseLine_roundtrip (hall r (by simp))]
      rw [ih fun x hx => hall x (by simp [hx])]

theorem save_lines_newline_free {rows : List Row}
    (hall : ∀ r ∈ rows, goodRow r = true) :
    ∀ l ∈ headerChars :: (rows.map fun r => List.intercalate [','] (rowCells r)),
      '\n' ∉ l := by
  intro l hl
  rcases List.mem_cons.mp hl with rfl | h
  · decide
  · obtain ⟨r, hr, rfl⟩ := List.mem_map.mp h
    refine not_mem_intercalate (by decide) _ ?_
    intro cell hcell
    exact (rowCells_sep_free (hall r hr) cell hcell).2

/-- C6 counterexample: the relational adapter does not round-trip.
Writing the one-record collection `[csvRow1]` (a plain record with a
non-blank key) through the adapter's write path raises sqlite's
`"20 values for 19 columns"`, the transaction rolls back, and a
subsequent load returns the old (empty) store — not the written
collection. -/
theorem C6_counterexample_relational_write_fails :
    upsert_rows ([] : List DBRow) [] [csvRow1] "q" =
      .error "20 values for 19 columns" ∧
    csvRow1.stockNo = some "A1" := by
  decide

/-- C6 (amended): the flat-file adapter satisfies the round trip —
`save_csv` then `load_csv` reproduces any 0..N-record collection whose
text fields are plain (non-empty, stripped, free of the CSV separators)
and whose numeric fields are finite decimals, the claim's "no special
characters".  The relational adapter does not: its write path (one
`INSERT ... ON CONFLICT` per record) always raises on any batch with a
processable record, leaving the store unchanged, so the relational
write-then-read never reproduces the input. -/
theorem C6_flatfile_round_trip_relational_write_fails :
    (∀ rows : List Row, (∀ r ∈ rows, goodRow r = true) →
       load_csv (save_csv rows) = rows) ∧
    (∀ (store : List DBRow) (full edited : List Row) (q : String),
       (∃ r ∈ edited, rowNotSkipped r = true) →
       ∃ msg, upsert_rows store full edited q = .error msg) := by
  constructor
  · intro rows hall
    unfold load_csv save_csv
    rw [List.splitOn_intercalate _ '\n' (save_lines_newline_free hall) (by simp)]
    exact filterMap_parseLine_lines rows hall
  · intro store full edited q h
    exact runUpserts_isError _ edited h

/-- C6 witness: the flat-file round trip on a two-record collection
exercising text, numeric, fractional and missing cells, and the
relational write failure on a one-record collection. -/
theorem C6_flatfile_round_trip_relational_write_fails_witness :
    ((∀ r ∈ [csvRow1, csvRow2], goodRow r = true) ∧
      load_csv (save_csv [csvRow1, csvRow2]) = [csvRow1, csvRow2]) ∧
    ((∃ r ∈ [csvRow1], rowNotSkipped r = true) ∧
      ∃ msg, upsert_rows ([] : List DBRow) [] [csvRow1] "q" = .error msg) :=
  ⟨⟨by decide,
    C6_flatfile_round_trip_relational_write_fails.1 [csvRow1, csvRow2] (by decide)⟩,
   ⟨by decide,
    C6_flatfile_round_trip_relational_write_fails.2 [] [] [csvRow1] "q" (by decide)⟩⟩

end Daner
